import Mathlib

/-!
Shallow embedding of `src/container/src/main.rs` (HackerOS-Steam):
a rootless-podman manager for a single sandboxed Steam session.

Modelling conventions:
* Paths are `String`s; `PathBuf::join` becomes string append with a `/`.
* The host is a record of the environment variables the program reads,
  a path-existence predicate (`Path::exists`, `which`), the numeric ids of
  the caller, and the daemon-visible fact whether the container exists
  (`inspect` succeeds exactly when it does).
* The host filesystem of directories is a partial map from paths to entry
  lists; `fs::create_dir_all` creates a missing directory (empty) and
  leaves an existing one untouched.
* Daemon operations are recorded in a call trace; they are modelled as
  succeeding (no claim under consideration concerns daemon-side failures).
* `anyhow` errors are the closed sum `AppError`: the three members of the
  `ContainerError` enum of the source plus the other `bail!`/`?` exits reachable in
  the modelled fragment.
-/

namespace HackerosSteam

abbrev Path := String

/-- Error taxonomy: `NoGpu`, `NoDisplay`, `NvidiaMissing` are the variants of
`ContainerError` (main.rs lines 18-26); `HomeMissing` is the `env::var("HOME")?`
failure in `get_data_dir`; `RootUser` and `NoPodmanSocket` are the two `bail!`
exits in `main`/`get_podman`. -/
inductive AppError
  | NoGpu
  | NoDisplay
  | NvidiaMissing
  | HomeMissing
  | RootUser
  | NoPodmanSocket
deriving DecidableEq, Repr

/-- The host state observed by one invocation: the environment variables the
program reads, path existence (covering `/dev/dri`, the Nvidia device nodes,
the podman socket), `which nvidia-container-toolkit` success, the numeric
ids of the caller, and whether the daemon already has the named container
(`inspect` succeeds iff `containerExists`).

`uid`/`gid` are the REAL ids, as returned by `nix::unistd::getuid`/`getgid`
(the only id-reading calls in the source). `euid` is the effective
user id of the caller; the source never reads it — the field exists so that claims about
effective-uid invocations can be stated. -/
structure HostState where
  wayland_display : Option String
  display_var : Option String
  xdg_data_home : Option String
  home : Option String
  uid : Nat
  euid : Nat
  gid : Nat
  pathExists : Path → Bool
  nvidiaToolkit : Bool
  containerExists : Bool

/-- Host directory tree: `none` = no directory at that path, `some es` =
directory whose entries are `es`. -/
abbrev Fs := Path → Option (List String)

/-- Rust `fs::create_dir_all` / `tokio::fs::create_dir_all`: creates a missing
directory (with no entries), succeeds leaving an existing directory — and in
particular its entries — untouched. Parent creation is immaterial to the
claims and elided. -/
def mkdirAll (p : Path) (fs : Fs) : Fs :=
  fun q => if q = p then some ((fs p).getD []) else fs q

/-- main.rs line 15. -/
def CONTAINER_NAME : String := "hackerosteam"

/-- main.rs line 16. -/
def IMAGE_NAME : String := "registry.fedoraproject.org/fedora:43"

/-- Rust function `get_data_dir` (main.rs lines 55-64): XDG_DATA_HOME, else HOME/.local/share,
joined with "hackerosteam"; fails iff HOME is needed but unset. -/
def get_data_dir (s : HostState) : Except AppError Path :=
  match s.xdg_data_home with
  | some x => Except.ok (x ++ "/hackerosteam")
  | none =>
    match s.home with
    | some h => Except.ok (h ++ "/.local/share" ++ "/hackerosteam")
    | none => Except.error AppError.HomeMissing

/-- The four storage paths (base, upper, work, lower/empty) derived from the
data root, as computed by `get_host_data_dirs` (main.rs lines 66-76). -/
structure HostDirs where
  base : Path
  upper : Path
  work : Path
  empty : Path
deriving DecidableEq, Repr

def dirs_of (base : Path) : HostDirs :=
  { base := base, upper := base ++ "/upper", work := base ++ "/work",
    empty := base ++ "/empty" }

/-- Rust function `get_host_data_dirs` (main.rs lines 66-76): resolves the data root and
`create_dir_all`s base, empty, upper, work — in that order. -/
def get_host_data_dirs (s : HostState) (fs : Fs) : Except AppError (HostDirs × Fs) :=
  match get_data_dir s with
  | Except.error e => Except.error e
  | Except.ok base =>
    let d := dirs_of base
    let fs := mkdirAll d.base fs
    let fs := mkdirAll d.empty fs
    let fs := mkdirAll d.upper fs
    let fs := mkdirAll d.work fs
    Except.ok (d, fs)

/-- Rust function `detect_display_server` (main.rs lines 78-86): WAYLAND_DISPLAY first,
then DISPLAY, else "none". -/
def detect_display_server (s : HostState) : String :=
  if s.wayland_display.isSome then "wayland"
  else if s.display_var.isSome then "x11"
  else "none"

/-- Rust function `check_gpu_drivers` (main.rs lines 88-104): no `/dev/dri` → NoGpu;
`/dev/nvidia0` present without `nvidia-container-toolkit` on PATH →
NvidiaMissing; otherwise returns whether the GPU is Nvidia. -/
def check_gpu_drivers (s : HostState) : Except AppError Bool :=
  if !(s.pathExists "/dev/dri") then Except.error AppError.NoGpu
  else
    let is_nvidia := s.pathExists "/dev/nvidia0"
    if is_nvidia then
      if !s.nvidiaToolkit then Except.error AppError.NvidiaMissing
      else Except.ok is_nvidia
    else Except.ok is_nvidia

/-- Rust function `ensure_overlay` (main.rs lines 106-122): re-resolve/create the data dirs;
`is_empty` starts true and becomes false iff the upper directory exists and
`read_dir` yields an entry; if the upper directory is absent or empty,
`create_dir_all` upper then work; otherwise leave the filesystem alone. -/
def ensure_overlay (s : HostState) (fs : Fs) : Except AppError Fs :=
  match get_host_data_dirs s fs with
  | Except.error e => Except.error e
  | Except.ok (d, fs1) =>
    let upperExists := (fs1 d.upper).isSome
    let is_empty := !(upperExists && !((fs1 d.upper).getD []).isEmpty)
    if !upperExists || is_empty then
      Except.ok (mkdirAll d.work (mkdirAll d.upper fs1))
    else
      Except.ok fs1

/-- podman `ContainerMount` (main.rs lines 144-193): the `uid_mappings` and
`gid_mappings` fields are `None` at every construction site and are omitted. -/
structure ContainerMount where
  type_ : Option String
  source : Option Path
  destination : Option Path
  options : Option (List String)
deriving DecidableEq, Repr

/-- podman `Namespace` value: only `nsmode` is ever set (`value` is `None`). -/
structure Namespace where
  nsmode : Option String
deriving DecidableEq, Repr

/-- podman `LinuxDeviceCgroup` (main.rs lines 195-199, 232-233). -/
structure LinuxDeviceCgroup where
  type_ : Option String
  major : Option Int
  minor : Option Int
  access : Option String
  allow : Option Bool
deriving DecidableEq, Repr

/-- Podman `LinuxCpu` restricted to the fields set at main.rs line 253 (the
`realtime_*`, `shares`, `cpus`, `mems` fields are all `None` and omitted). -/
structure LinuxCpu where
  quota : Option Int
  period : Option Nat
deriving DecidableEq, Repr

/-- Podman `LinuxMemory` restricted to the one field set at main.rs line 254. -/
structure LinuxMemory where
  limit : Option Int
deriving DecidableEq, Repr

structure LinuxPids where
  limit : Option Int
deriving DecidableEq, Repr

/-- Podman `LinuxBlockIo` restricted to the one field set at main.rs line 256. -/
structure LinuxBlockIo where
  weight : Option Nat
deriving DecidableEq, Repr

structure LinuxResources where
  cpu : Option LinuxCpu
  memory : Option LinuxMemory
  pids : Option LinuxPids
  blockIo : Option LinuxBlockIo
  devices : Option (List LinuxDeviceCgroup)
deriving DecidableEq, Repr

/-- The execution specification handed to `podman.containers().create`
(`ContainerCreateOpts`, main.rs lines 236-268), with exactly the builder
fields the source sets (including the source spelling `no_new_privilages`). -/
structure ContainerCreateOpts where
  image : String
  name : String
  terminal : Bool
  user_namespace : Namespace
  ipc_namespace : Namespace
  pid_namespace : Namespace
  uts_namespace : Namespace
  net_namespace : Namespace
  mounts : List ContainerMount
  add_capabilities : List String
  drop_capabilities : List String
  selinux_opts : List String
  no_new_privilages : Bool
  privileged : Bool
  env : List (String × String)
  resource_limits : LinuxResources
  oci_runtime : Option String
deriving DecidableEq, Repr

/-- Candidate Nvidia device nodes (main.rs line 219), in source order. -/
def nvidia_dev_candidates : List Path :=
  ["/dev/nvidia0", "/dev/nvidiactl", "/dev/nvidia-modeset", "/dev/nvidia-uvm",
   "/dev/nvidia-uvm-tools"]

/-- The bind mount pushed for each present Nvidia device node
(main.rs lines 221-228). -/
def nvidia_bind (dev : Path) : ContainerMount :=
  { type_ := some "bind", source := some dev, destination := some dev,
    options := some ["rbind", "rprivate"] }

/-- A device-cgroup allow rule: every rule in the source (main.rs lines
195-199, 232-233) is `c`-type, all minors (`-1`), `rwm`, `allow`. -/
def cgroup_rule (major : Int) : LinuxDeviceCgroup :=
  { type_ := some "c", major := some major, minor := some (-1),
    access := some "rwm", allow := some true }

/-- The six unconditional mounts (main.rs lines 144-193): X11 socket
(read-only), the runtime dir, the overlay at /home/steam, and the dri, snd
and input device directories. -/
def base_mounts (run_user : Path) (overlay_opts : List String) : List ContainerMount :=
  [ { type_ := some "bind", source := some "/tmp/.X11-unix",
      destination := some "/tmp/.X11-unix", options := some ["rbind", "ro"] },
    { type_ := some "bind", source := some run_user, destination := some run_user,
      options := some ["rbind", "rprivate"] },
    { type_ := some "overlay", source := none, destination := some "/home/steam",
      options := some overlay_opts },
    { type_ := some "bind", source := some "/dev/dri", destination := some "/dev/dri",
      options := some ["rbind", "rprivate"] },
    { type_ := some "bind", source := some "/dev/snd", destination := some "/dev/snd",
      options := some ["rbind", "rprivate"] },
    { type_ := some "bind", source := some "/dev/input", destination := some "/dev/input",
      options := some ["rbind", "rprivate"] } ]

/-- The spec construction of `create_container` (main.rs lines 134-268), as a
pure function of the host state, the already-computed Nvidia flag and display
transport, and the storage paths.  Push order follows the source: base envs,
DISPLAY, WAYLAND_DISPLAY, Nvidia envs; base mounts then present Nvidia device
binds; base cgroup rules then the two Nvidia majors. -/
def build_spec (s : HostState) (is_nvidia : Bool) (disp : String) (d : HostDirs) :
    ContainerCreateOpts :=
  let run_user : Path := "/run/user/" ++ toString s.uid
  let overlay_opts : List String :=
    ["upperdir=" ++ d.upper, "lowerdir=" ++ d.empty, "workdir=" ++ d.work]
  let mounts := base_mounts run_user overlay_opts ++
    (if is_nvidia
     then (nvidia_dev_candidates.filter (fun dev => s.pathExists dev)).map nvidia_bind
     else [])
  let device_cgroup_rules :=
    [cgroup_rule 226, cgroup_rule 116, cgroup_rule 13] ++
    (if is_nvidia then [cgroup_rule 195, cgroup_rule 235] else [])
  let envs0 : List (String × String) :=
    [ ("PULSE_SERVER", "unix:" ++ run_user ++ "/pulse/native"),
      ("STEAMOS", "1"),
      ("STEAM_RUNTIME", "0"),
      ("XDG_RUNTIME_DIR", run_user) ]
  let envs1 := envs0 ++
    (if disp = "x11" then [("DISPLAY", s.display_var.getD ":0")] else [])
  let envs2 := envs1 ++
    (if disp = "wayland"
     then [("WAYLAND_DISPLAY", s.wayland_display.getD "wayland-0")] else [])
  let envs := envs2 ++
    (if is_nvidia
     then [("NVIDIA_VISIBLE_DEVICES", "all"), ("NVIDIA_DRIVER_CAPABILITIES", "all")]
     else [])
  { image := IMAGE_NAME
    name := CONTAINER_NAME
    terminal := true
    user_namespace := { nsmode := some "keep-id" }
    ipc_namespace := { nsmode := some "host" }
    pid_namespace := { nsmode := some "host" }
    uts_namespace := { nsmode := some "host" }
    net_namespace := { nsmode := some "host" }
    mounts := mounts
    add_capabilities := ["SYS_NICE", "IPC_LOCK"]
    drop_capabilities := ["ALL"]
    selinux_opts := ["disable"]
    no_new_privilages := true
    privileged := false
    env := envs
    resource_limits :=
      { cpu := some { quota := some 90000, period := none }
        memory := some { limit := some 17179869184 }
        pids := some { limit := some 4096 }
        blockIo := some { weight := some 1000 }
        devices := some device_cgroup_rules }
    oci_runtime := if is_nvidia then some "nvidia" else none }

/-- The execution spec an invocation of `create` would build, with the same
short-circuiting checks `create_container` performs before constructing it
(main.rs lines 124-268): GPU check, display check, data-root resolution. -/
def spec_of (s : HostState) : Except AppError ContainerCreateOpts :=
  match check_gpu_drivers s with
  | Except.error e => Except.error e
  | Except.ok is_nvidia =>
    let disp := detect_display_server s
    if disp = "none" then Except.error AppError.NoDisplay
    else
      match get_data_dir s with
      | Except.error e => Except.error e
      | Except.ok base => Except.ok (build_spec s is_nvidia disp (dirs_of base))

/-- One daemon operation, as issued over the podman socket. -/
inductive DaemonCall
  | inspect
  | createContainer
  | start
  | execCreate
  | execStart
  | stop
  | kill
  | restart
  | delete
  | imagePull
deriving DecidableEq, Repr

/-- Among the issued daemon operations, `inspect` is the only read-only one. -/
def DaemonCall.isMutating : DaemonCall → Bool
  | DaemonCall.inspect => false
  | _ => true

/-- Rust function `create_container` (main.rs lines 124-319): capability checks, display
check, data dirs, overlay initialization, spec construction, then the daemon
phase — inspect; if the container already exists return Ok, otherwise
create, start, exec-create/exec-start the install command, and stop.
Returns (result, daemon-call trace, final filesystem); daemon operations are
modelled as succeeding. -/
def create_container (s : HostState) (fs : Fs) :
    Except AppError Unit × List DaemonCall × Fs :=
  match check_gpu_drivers s with
  | Except.error e => (Except.error e, [], fs)
  | Except.ok is_nvidia =>
    let disp := detect_display_server s
    if disp = "none" then (Except.error AppError.NoDisplay, [], fs)
    else
      match get_host_data_dirs s fs with
      | Except.error e => (Except.error e, [], fs)
      | Except.ok (d, fs1) =>
        match ensure_overlay s fs1 with
        | Except.error e => (Except.error e, [], fs1)
        | Except.ok fs2 =>
          let _opts := build_spec s is_nvidia disp d
          if s.containerExists then
            (Except.ok (), [DaemonCall.inspect], fs2)
          else
            (Except.ok (),
             [DaemonCall.inspect, DaemonCall.createContainer, DaemonCall.start,
              DaemonCall.execCreate, DaemonCall.execStart, DaemonCall.stop], fs2)

/-- CLI subcommands (main.rs lines 35-44). -/
inductive Command
  | create
  | run (session : Option String)
  | update
  | kill
  | restart
  | remove
  | status
deriving DecidableEq, Repr

/-- The per-user podman socket path resolved by `get_podman`
(main.rs line 47). -/
def podman_socket_path (uid : Nat) : Path :=
  "/run/user/" ++ toString uid ++ "/podman/podman.sock"

/-- Outcome of one program invocation: result, whether `get_podman` was
reached (socket resolution), the daemon calls issued, final filesystem. -/
structure MainOutcome where
  result : Except AppError Unit
  socketResolved : Bool
  calls : List DaemonCall
  fs : Fs

/-- Rust function `main` (main.rs lines 321-419): the root-uid guard (`getuid().is_root()`,
i.e. REAL uid = 0) runs first; then `get_podman` resolves the user socket;
then the subcommand dispatch.  Daemon operations are modelled as succeeding;
exec streaming is elided. -/
def main_run (cmd : Command) (s : HostState) (fs : Fs) : MainOutcome :=
  if s.uid = 0 then
    { result := Except.error AppError.RootUser, socketResolved := false,
      calls := [], fs := fs }
  else if !(s.pathExists (podman_socket_path s.uid)) then
    { result := Except.error AppError.NoPodmanSocket, socketResolved := true,
      calls := [], fs := fs }
  else
    match cmd with
    | Command.create =>
      match create_container s fs with
      | (r, calls, fs2) =>
        { result := r, socketResolved := true, calls := calls, fs := fs2 }
    | Command.run _ =>
      match create_container s fs with
      | (Except.error e, calls, fs2) =>
        { result := Except.error e, socketResolved := true, calls := calls, fs := fs2 }
      | (Except.ok _, calls, fs2) =>
        { result := Except.ok (), socketResolved := true,
          calls := calls ++ [DaemonCall.start, DaemonCall.execCreate, DaemonCall.execStart],
          fs := fs2 }
    | Command.update =>
      { result := Except.ok (), socketResolved := true,
        calls := [DaemonCall.imagePull], fs := fs }
    | Command.kill =>
      { result := Except.ok (), socketResolved := true,
        calls := [DaemonCall.kill], fs := fs }
    | Command.restart =>
      { result := Except.ok (), socketResolved := true,
        calls := [DaemonCall.restart], fs := fs }
    | Command.remove =>
      { result := Except.ok (), socketResolved := true,
        calls := [DaemonCall.stop, DaemonCall.delete], fs := fs }
    | Command.status =>
      { result := Except.ok (), socketResolved := true,
        calls := [DaemonCall.inspect], fs := fs }

/-- Kernel CFS default scheduling period in microseconds; the built spec
leaves the period field unset, so this default applies. -/
def default_cpu_period_us : Int := 100000

/-- Lower bound of the allowed block-I/O weight range (OCI runtime spec /
`podman run --blkio-weight`: 10 to 1000). -/
def blkio_weight_min : Nat := 10

/-- Upper bound of the allowed block-I/O weight range. -/
def blkio_weight_max : Nat := 1000

/-- Midpoint of the allowed block-I/O weight range. -/
def blkio_midpoint : Nat := (blkio_weight_min + blkio_weight_max) / 2

/-- Env lookup by key (first hit), for stating properties of the
environment list of a spec. -/
def lookupEnv (e : List (String × String)) (k : String) : Option String :=
  (e.find? (fun kv => kv.fst == k)).map (fun kv => kv.snd)

/- ------------------------------------------------------------------ -/
/- Concrete fixtures used by witnesses and counterexamples.           -/
/- ------------------------------------------------------------------ -/

def fs0 : Fs := fun _ => none

def stdPaths : Path → Bool :=
  fun p => p == "/dev/dri" || p == "/run/user/1000/podman/podman.sock"

/-- A plain AMD/Mesa host on Wayland, uid 1000, no container yet. -/
def stdHost : HostState :=
  { wayland_display := some "wayland-1", display_var := none,
    xdg_data_home := none, home := some "/home/gamer",
    uid := 1000, euid := 1000, gid := 1000,
    pathExists := stdPaths, nvidiaToolkit := false, containerExists := false }

def stdBase : Path := "/home/gamer" ++ "/.local/share" ++ "/hackerosteam"

def stdDirs : HostDirs := dirs_of stdBase

/-- The spec `create` builds on `stdHost`. -/
def stdOpts : ContainerCreateOpts :=
  build_spec stdHost (stdHost.pathExists "/dev/nvidia0")
    (detect_display_server stdHost) stdDirs

/-- The `stdHost` state with the container already present. -/
def existsHost : HostState := { stdHost with containerExists := true }

/-- Container present but no graphics device node at all. -/
def noGpuHost : HostState :=
  { stdHost with pathExists := fun _ => false, containerExists := true }

/-- Neither display transport active. -/
def noDispHost : HostState := { stdHost with wayland_display := none }

/-- Both display transports signalled at once. -/
def bothDispHost : HostState := { stdHost with display_var := some ":1" }

/-- Nvidia host exposing only a strict subset of the candidate device
nodes: nvidia0 and nvidiactl present, modeset/uvm/uvm-tools absent. -/
def nvHost : HostState :=
  { stdHost with
    pathExists := fun p =>
      p == "/dev/dri" || p == "/dev/nvidia0" || p == "/dev/nvidiactl",
    nvidiaToolkit := true }

/-- The spec `create` builds on `nvHost`. -/
def nvOpts : ContainerCreateOpts :=
  build_spec nvHost (nvHost.pathExists "/dev/nvidia0")
    (detect_display_server nvHost) stdDirs

/-- Invoked with real uid 0. -/
def rootHost : HostState := { stdHost with uid := 0, euid := 0, gid := 0 }

/-- Effective uid 0 but real uid 1000 (e.g. a setuid-root launcher):
the guard `getuid().is_root()` in the source does not look at the effective id. -/
def suidHost : HostState := { stdHost with euid := 0 }

/-- A filesystem in which the upper directory already holds an entry. -/
def c3fs : Fs :=
  fun p => if p = stdDirs.upper then some ["steamapps"] else none

/-- What `get_host_data_dirs` leaves behind on `c3fs`. -/
def c3fs1 : Fs :=
  mkdirAll stdDirs.work (mkdirAll stdDirs.upper
    (mkdirAll stdDirs.empty (mkdirAll stdDirs.base c3fs)))

/-- What `get_host_data_dirs` leaves behind on the empty filesystem. -/
def c10fs1 : Fs :=
  mkdirAll stdDirs.work (mkdirAll stdDirs.upper
    (mkdirAll stdDirs.empty (mkdirAll stdDirs.base fs0)))

/- ------------------------------------------------------------------ -/
/- Helper lemmas.                                                     -/
/- ------------------------------------------------------------------ -/

theorem mkdirAll_some (p : Path) (fs : Fs) (q : Path) (es : List String)
    (h : fs q = some es) : mkdirAll p fs q = some es := by
  unfold mkdirAll
  by_cases hq : q = p
  · subst hq; simp [h]
  · simp [hq, h]

theorem mkdirAll_isSome (p : Path) (fs : Fs) (q : Path)
    (h : (fs q).isSome = true) : ((mkdirAll p fs) q).isSome = true := by
  obtain ⟨es, hes⟩ := Option.isSome_iff_exists.mp h
  rw [mkdirAll_some p fs q es hes]
  rfl

theorem mkdirAll_isSome_self (p : Path) (fs : Fs) :
    ((mkdirAll p fs) p).isSome = true := by
  unfold mkdirAll
  simp

theorem get_host_data_dirs_eq (s : HostState) (fs : Fs) (base : Path)
    (hb : get_data_dir s = Except.ok base) :
    get_host_data_dirs s fs = Except.ok (dirs_of base,
      mkdirAll (dirs_of base).work (mkdirAll (dirs_of base).upper
        (mkdirAll (dirs_of base).empty (mkdirAll (dirs_of base).base fs)))) := by
  unfold get_host_data_dirs
  rw [hb]

theorem get_host_data_dirs_preserves (s : HostState) (fs : Fs) (d : HostDirs)
    (fs1 : Fs) (h : get_host_data_dirs s fs = Except.ok (d, fs1))
    (q : Path) (es : List String) (hq : fs q = some es) : fs1 q = some es := by
  unfold get_host_data_dirs at h
  cases hb : get_data_dir s with
  | error e => rw [hb] at h; exact absurd h (by simp)
  | ok base =>
    rw [hb] at h
    simp only [Except.ok.injEq, Prod.mk.injEq] at h
    obtain ⟨-, h2⟩ := h
    subst h2
    exact mkdirAll_some _ _ _ _ (mkdirAll_some _ _ _ _
      (mkdirAll_some _ _ _ _ (mkdirAll_some _ _ _ _ hq)))

theorem get_host_data_dirs_upper_isSome (s : HostState) (fs : Fs) (d : HostDirs)
    (fs1 : Fs) (h : get_host_data_dirs s fs = Except.ok (d, fs1)) :
    (fs1 d.upper).isSome = true := by
  unfold get_host_data_dirs at h
  cases hb : get_data_dir s with
  | error e => rw [hb] at h; exact absurd h (by simp)
  | ok base =>
    rw [hb] at h
    simp only [Except.ok.injEq, Prod.mk.injEq] at h
    obtain ⟨h1, h2⟩ := h
    subst h1; subst h2
    exact mkdirAll_isSome _ _ _ (mkdirAll_isSome_self _ _)

theorem ensure_overlay_eq (s : HostState) (fs : Fs) (d : HostDirs) (fs1 : Fs)
    (h : get_host_data_dirs s fs = Except.ok (d, fs1)) :
    ensure_overlay s fs = Except.ok
      (if ((fs1 d.upper).getD []).isEmpty
       then mkdirAll d.work (mkdirAll d.upper fs1)
       else fs1) := by
  have hup := get_host_data_dirs_upper_isSome s fs d fs1 h
  obtain ⟨es, hes⟩ := Option.isSome_iff_exists.mp hup
  unfold ensure_overlay
  rw [h]
  cases es with
  | nil => simp [hes]
  | cons a as => simp [hes]

theorem ensure_overlay_preserves (s : HostState) (fs fs2 : Fs)
    (h : ensure_overlay s fs = Except.ok fs2)
    (q : Path) (es : List String) (hq : fs q = some es) : fs2 q = some es := by
  unfold ensure_overlay at h
  cases hg : get_host_data_dirs s fs with
  | error e => rw [hg] at h; exact absurd h (by simp)
  | ok pr =>
    obtain ⟨d, fs1⟩ := pr
    rw [hg] at h
    have hfs1 : fs1 q = some es := get_host_data_dirs_preserves s fs d fs1 hg q es hq
    simp only at h
    split at h
    · simp only [Except.ok.injEq] at h
      subst h
      exact mkdirAll_some _ _ _ _ (mkdirAll_some _ _ _ _ hfs1)
    · simp only [Except.ok.injEq] at h
      subst h
      exact hfs1

theorem create_container_preserves (s : HostState) (fs : Fs)
    (q : Path) (es : List String) (hq : fs q = some es) :
    (create_container s fs).2.2 q = some es := by
  unfold create_container
  cases hg : check_gpu_drivers s with
  | error e => exact hq
  | ok nv =>
    dsimp only
    by_cases hdisp : detect_display_server s = "none"
    · simp only [if_pos hdisp]; exact hq
    · simp only [if_neg hdisp]
      cases hd : get_host_data_dirs s fs with
      | error e => exact hq
      | ok pr =>
        obtain ⟨d, fs1⟩ := pr
        have hfs1 : fs1 q = some es :=
          get_host_data_dirs_preserves s fs d fs1 hd q es hq
        dsimp only
        cases ho : ensure_overlay s fs1 with
        | error e => exact hfs1
        | ok fs2 =>
          have hfs2 : fs2 q = some es :=
            ensure_overlay_preserves s fs1 fs2 ho q es hfs1
          dsimp only
          by_cases hex : s.containerExists = true
          · simp only [if_pos hex]; exact hfs2
          · simp only [if_neg hex]; exact hfs2

theorem check_gpu_ok (s : HostState) (hdri : s.pathExists "/dev/dri" = true)
    (hnv : s.pathExists "/dev/nvidia0" = true → s.nvidiaToolkit = true) :
    check_gpu_drivers s = Except.ok (s.pathExists "/dev/nvidia0") := by
  cases h0 : s.pathExists "/dev/nvidia0" with
  | false => simp [check_gpu_drivers, hdri, h0]
  | true => simp [check_gpu_drivers, hdri, h0, hnv h0]

theorem spec_of_inv (s : HostState) (opts : ContainerCreateOpts)
    (h : spec_of s = Except.ok opts) :
    ∃ base, get_data_dir s = Except.ok base
      ∧ opts = build_spec s (s.pathExists "/dev/nvidia0")
          (detect_display_server s) (dirs_of base)
      ∧ detect_display_server s ≠ "none"
      ∧ s.pathExists "/dev/dri" = true
      ∧ (s.pathExists "/dev/nvidia0" = true → s.nvidiaToolkit = true) := by
  cases hdri : s.pathExists "/dev/dri" with
  | false => simp [spec_of, check_gpu_drivers, hdri] at h
  | true =>
    have hck : ∀ ht : s.pathExists "/dev/nvidia0" = true → s.nvidiaToolkit = true,
        check_gpu_drivers s = Except.ok (s.pathExists "/dev/nvidia0") :=
      fun ht => check_gpu_ok s hdri ht
    cases h0 : s.pathExists "/dev/nvidia0" with
    | false =>
      have hck0 : check_gpu_drivers s = Except.ok false := by
        rw [← h0]; exact hck (fun hc => absurd hc (by simp [h0]))
      by_cases hd : detect_display_server s = "none"
      · simp [spec_of, hck0, hd] at h
      · cases hb : get_data_dir s with
        | error e => simp [spec_of, hck0, hd, hb] at h
        | ok base =>
          refine ⟨base, rfl, ?_, hd, rfl, fun hc => absurd hc (by simp)⟩
          simp only [spec_of, hck0, hb, if_neg hd, Except.ok.injEq] at h
          exact h.symm
    | true =>
      cases ht : s.nvidiaToolkit with
      | false => simp [spec_of, check_gpu_drivers, hdri, h0, ht] at h
      | true =>
        have hck0 : check_gpu_drivers s = Except.ok true := by
          rw [← h0]; exact hck (fun _ => ht)
        by_cases hd : detect_display_server s = "none"
        · simp [spec_of, hck0, hd] at h
        · cases hb : get_data_dir s with
          | error e => simp [spec_of, hck0, hd, hb] at h
          | ok base =>
            refine ⟨base, rfl, ?_, hd, rfl, fun _ => rfl⟩
            simp only [spec_of, hck0, hb, if_neg hd, Except.ok.injEq] at h
            exact h.symm

theorem run_user_ne_candidate (t dev : String) (hdev : dev ∈ nvidia_dev_candidates) :
    ("/run/user/" ++ t) ≠ dev := by
  intro heq
  have hd : ("/run/user/" ++ t).data = dev.data := congrArg String.data heq
  have hr : dev.data.get? 1 = some 'r' := by
    rw [← hd]
    rfl
  fin_cases hdev <;> exact absurd hr (by decide)

theorem base_mounts_no_candidate (t : String) (oo : List String) (dev : Path)
    (hdev : dev ∈ nvidia_dev_candidates) :
    ((base_mounts ("/run/user/" ++ t) oo).any
      fun m => decide (m.source = some dev)) = false := by
  have hne := run_user_ne_candidate t dev hdev
  fin_cases hdev <;> simp_all [base_mounts]

theorem nvidia_mounts_any (q : Path → Bool) (dev : Path)
    (hdev : dev ∈ nvidia_dev_candidates) :
    (((nvidia_dev_candidates.filter q).map nvidia_bind).any
      fun m => decide (m.source = some dev)) = q dev := by
  cases hq : q dev with
  | false =>
    rw [List.any_eq_false]
    intro m hm
    simp only [List.mem_map, List.mem_filter] at hm
    obtain ⟨d2, ⟨hd2mem, hd2q⟩, hd2⟩ := hm
    subst hd2
    simp only [nvidia_bind, decide_eq_true_eq, Option.some.injEq]
    intro hsrc
    subst hsrc
    rw [hq] at hd2q
    exact Bool.noConfusion hd2q
  | true =>
    rw [List.any_eq_true]
    refine ⟨nvidia_bind dev, List.mem_map_of_mem _ (List.mem_filter.mpr ⟨hdev, hq⟩), ?_⟩
    simp [nvidia_bind]

theorem create_container_error_calls (s : HostState) (fs : Fs) (e : AppError)
    (h : (create_container s fs).1 = Except.error e) :
    (create_container s fs).2.1 = [] := by
  unfold create_container at h ⊢
  cases hg : check_gpu_drivers s with
  | error e2 => rfl
  | ok nv =>
    rw [hg] at h
    dsimp only at h ⊢
    by_cases hdisp : detect_display_server s = "none"
    · simp only [if_pos hdisp]
    · simp only [if_neg hdisp] at h ⊢
      cases hd : get_host_data_dirs s fs with
      | error e3 => rfl
      | ok pr =>
        obtain ⟨d, fs1⟩ := pr
        rw [hd] at h
        dsimp only at h ⊢
        cases ho : ensure_overlay s fs1 with
        | error e4 => rfl
        | ok fs2 =>
          rw [ho] at h
          dsimp only at h ⊢
          by_cases hex : s.containerExists = true
          · simp only [if_pos hex] at h
            exact absurd h (by simp)
          · simp only [if_neg hex] at h
            exact absurd h (by simp)

/- ------------------------------------------------------------------ -/
/- Claim theorems.                                                    -/
/- ------------------------------------------------------------------ -/

/-- Claim C7 (confirmed): display detection returns Wayland whenever the
Wayland signal is set — in particular when both WAYLAND_DISPLAY and DISPLAY
are set simultaneously — and returns the "none" transport when neither
signal is set. -/
theorem display_precedence (s : HostState) :
    (s.wayland_display.isSome = true → s.display_var.isSome = true →
      detect_display_server s = "wayland")
    ∧ (s.wayland_display = none → s.display_var = none →
      detect_display_server s = "none") := by
  cases hW : s.wayland_display <;> cases hD : s.display_var <;>
    simp [detect_display_server, hW, hD]

theorem display_precedence_witness :
    bothDispHost.wayland_display.isSome = true
    ∧ bothDispHost.display_var.isSome = true
    ∧ detect_display_server bothDispHost = "wayland"
    ∧ noDispHost.wayland_display = none
    ∧ noDispHost.display_var = none
    ∧ detect_display_server noDispHost = "none" :=
  ⟨rfl, rfl, (display_precedence bothDispHost).1 rfl rfl, rfl, rfl,
    (display_precedence noDispHost).2 rfl rfl⟩

/-- Claim C9 counterexample: the claim speaks of the EFFECTIVE user id, but
the guard in `main` calls `getuid()`, which returns the real uid.  On a host
state with effective uid 0 and real uid 1000 the program does not fail: it
resolves the daemon socket and performs the requested lifecycle operation. -/
theorem root_guard_cex :
    suidHost.euid = 0
    ∧ (main_run Command.status suidHost fs0).socketResolved = true
    ∧ (main_run Command.status suidHost fs0).result = Except.ok ()
    ∧ (main_run Command.status suidHost fs0).calls = [DaemonCall.inspect] :=
  ⟨rfl, rfl, rfl, rfl⟩

/-- Claim C9 (amended): for every subcommand, when the program is invoked
with REAL user id 0 (`getuid().is_root()`), it fails with the root-user
error before resolving the daemon socket and issues no daemon call; the
guard does not inspect the effective uid. -/
theorem root_guard (cmd : Command) (s : HostState) (fs : Fs) (h : s.uid = 0) :
    main_run cmd s fs =
      { result := Except.error AppError.RootUser, socketResolved := false,
        calls := [], fs := fs } := by
  unfold main_run
  rw [h]
  simp

theorem root_guard_witness :
    rootHost.uid = 0
    ∧ main_run Command.create rootHost fs0 =
        { result := Except.error AppError.RootUser, socketResolved := false,
          calls := [], fs := fs0 } :=
  ⟨rfl, root_guard Command.create rootHost fs0 rfl⟩

/-- Claim C8 (confirmed): the execution spec is a deterministic function of
the host state — two invocations whose hosts agree on the environment
variables read, on path existence (device nodes), and on uid/gid build the
same `ContainerCreateOpts` value, regardless of daemon-side state. -/
theorem spec_deterministic (s1 s2 : HostState)
    (hW : s1.wayland_display = s2.wayland_display)
    (hD : s1.display_var = s2.display_var)
    (hX : s1.xdg_data_home = s2.xdg_data_home)
    (hH : s1.home = s2.home)
    (hu : s1.uid = s2.uid)
    (hg : s1.gid = s2.gid)
    (hp : ∀ p, s1.pathExists p = s2.pathExists p)
    (ht : s1.nvidiaToolkit = s2.nvidiaToolkit) :
    spec_of s1 = spec_of s2 := by
  have hpfun : s1.pathExists = s2.pathExists := funext hp
  obtain ⟨w1, d1, x1, hm1, u1, e1, g1, p1, t1, c1⟩ := s1
  obtain ⟨w2, d2, x2, hm2, u2, e2, g2, p2, t2, c2⟩ := s2
  dsimp only at hW hD hX hH hu hg ht hpfun
  subst hW hD hX hH hu hg ht hpfun
  rfl

theorem spec_deterministic_witness :
    stdHost.wayland_display = existsHost.wayland_display
    ∧ stdHost.containerExists ≠ existsHost.containerExists
    ∧ spec_of stdHost = spec_of existsHost :=
  ⟨rfl, by decide,
    spec_deterministic stdHost existsHost rfl rfl rfl rfl rfl rfl (fun _ => rfl) rfl⟩

/-- Claim C2 (confirmed): with no graphics device node, `create` fails with
the NoGpu error having issued no daemon call at all; and whenever `create`
fails with a capability-check error (NoGpu, NoDisplay, NvidiaMissing), its
daemon-call trace contains no mutating call. -/
theorem create_checks_before_daemon (s : HostState) (fs : Fs) :
    (s.pathExists "/dev/dri" = false →
      (create_container s fs).1 = Except.error AppError.NoGpu
      ∧ (create_container s fs).2.1 = [])
    ∧ (∀ e, (e = AppError.NoGpu ∨ e = AppError.NoDisplay ∨ e = AppError.NvidiaMissing) →
      (create_container s fs).1 = Except.error e →
      ((create_container s fs).2.1.filter DaemonCall.isMutating) = []) := by
  constructor
  · intro hdri
    constructor <;> simp [create_container, check_gpu_drivers, hdri]
  · intro e _ herr
    rw [create_container_error_calls s fs e herr]
    rfl

theorem create_checks_before_daemon_witness :
    noGpuHost.pathExists "/dev/dri" = false
    ∧ ((create_container noGpuHost fs0).1 = Except.error AppError.NoGpu
       ∧ (create_container noGpuHost fs0).2.1 = [])
    ∧ ((create_container noGpuHost fs0).2.1.filter DaemonCall.isMutating) = [] :=
  ⟨rfl, (create_checks_before_daemon noGpuHost fs0).1 rfl,
    (create_checks_before_daemon noGpuHost fs0).2 AppError.NoGpu (Or.inl rfl) rfl⟩

/-- Claim C10 (confirmed): `ensure_overlay` starts by re-running directory
resolution, which creates all four directories, so at the emptiness check
the upper directory always exists; consequently the "upper absent" arm of
the condition is unreachable and the (re)initialization decision depends
solely on whether the upper directory has entries. -/
theorem overlay_upper_always_exists (s : HostState) (fs : Fs) (d : HostDirs)
    (fs1 : Fs) (h : get_host_data_dirs s fs = Except.ok (d, fs1)) :
    (fs1 d.upper).isSome = true
    ∧ ensure_overlay s fs = Except.ok
        (if ((fs1 d.upper).getD []).isEmpty
         then mkdirAll d.work (mkdirAll d.upper fs1)
         else fs1) :=
  ⟨get_host_data_dirs_upper_isSome s fs d fs1 h, ensure_overlay_eq s fs d fs1 h⟩

theorem overlay_upper_always_exists_witness :
    get_host_data_dirs stdHost fs0 = Except.ok (stdDirs, c10fs1)
    ∧ ((c10fs1 stdDirs.upper).isSome = true
       ∧ ensure_overlay stdHost fs0 = Except.ok
          (if ((c10fs1 stdDirs.upper).getD []).isEmpty
           then mkdirAll stdDirs.work (mkdirAll stdDirs.upper c10fs1)
           else c10fs1)) :=
  ⟨rfl, overlay_upper_always_exists stdHost fs0 stdDirs c10fs1 rfl⟩

/-- Claim C5 counterexample: the claim asserts the block-I/O weight equals
the midpoint of the allowed weight range; the built spec sets weight 1000,
while the midpoint of the allowed 10-1000 range is 505. -/
theorem resource_limits_blkio_cex :
    (spec_of stdHost).map (fun o => o.resource_limits.blockIo)
      = Except.ok (some { weight := some 1000 })
    ∧ blkio_midpoint = 505
    ∧ ((1000 : Nat) = blkio_midpoint → False) :=
  ⟨rfl, rfl, by decide⟩

/-- Claim C5 (amended): every built execution spec carries the fixed
resource-limit constants — CPU quota 90000 µs, which is 90% of the default
100000 µs scheduling period (the period field is left unset), memory ceiling
exactly 16 GiB, pids ceiling 4096, and block-I/O weight 1000, which is the
maximum (not the midpoint) of the allowed 10-1000 weight range. -/
theorem resource_limits_constants (s : HostState) (opts : ContainerCreateOpts)
    (h : spec_of s = Except.ok opts) :
    opts.resource_limits.cpu = some { quota := some 90000, period := none }
    ∧ (90000 : Int) * 100 = 90 * default_cpu_period_us
    ∧ opts.resource_limits.memory = some { limit := some 17179869184 }
    ∧ (17179869184 : Int) = 16 * 1024 * 1024 * 1024
    ∧ opts.resource_limits.pids = some { limit := some 4096 }
    ∧ opts.resource_limits.blockIo = some { weight := some 1000 }
    ∧ (1000 : Nat) = blkio_weight_max := by
  obtain ⟨base, hb, hopts, hd, hdri, ht⟩ := spec_of_inv s opts h
  subst hopts
  exact ⟨rfl, by decide, rfl, by decide, rfl, rfl, rfl⟩

theorem resource_limits_constants_witness :
    spec_of stdHost = Except.ok stdOpts
    ∧ (stdOpts.resource_limits.cpu = some { quota := some 90000, period := none }
       ∧ (90000 : Int) * 100 = 90 * default_cpu_period_us
       ∧ stdOpts.resource_limits.memory = some { limit := some 17179869184 }
       ∧ (17179869184 : Int) = 16 * 1024 * 1024 * 1024
       ∧ stdOpts.resource_limits.pids = some { limit := some 4096 }
       ∧ stdOpts.resource_limits.blockIo = some { weight := some 1000 }
       ∧ (1000 : Nat) = blkio_weight_max) :=
  ⟨rfl, resource_limits_constants stdHost stdOpts rfl⟩

/-- Claim C1 counterexample: the claim quantifies over EVERY host state in
which the container already exists, but `create` runs its capability checks
before the inspect: with the container present and no graphics device node,
`create` returns the NoGpu error instead of success. -/
theorem create_idempotent_cex :
    noGpuHost.containerExists = true
    ∧ (create_container noGpuHost fs0).1 = Except.error AppError.NoGpu :=
  ⟨rfl, rfl⟩

/-- Claim C1 (amended): whenever the pre-daemon checks pass (graphics device
present, Nvidia toolkit present if an Nvidia device exists, a display
transport detected, data root resolvable) and the daemon reports the session
container already exists, `create` returns success, issues only the
read-only inspect call, and leaves the entries of every existing host
directory — in particular the persistent upper directory — unchanged;
`create` never errors merely because the session already exists. -/
theorem create_noop_when_exists (s : HostState) (fs : Fs)
    (hex : s.containerExists = true)
    (hdri : s.pathExists "/dev/dri" = true)
    (hnv : s.pathExists "/dev/nvidia0" = true → s.nvidiaToolkit = true)
    (hdisp : detect_display_server s ≠ "none")
    (hbase : ∃ base, get_data_dir s = Except.ok base) :
    (create_container s fs).1 = Except.ok ()
    ∧ (create_container s fs).2.1 = [DaemonCall.inspect]
    ∧ (∀ q es, fs q = some es → (create_container s fs).2.2 q = some es) := by
  obtain ⟨base, hb⟩ := hbase
  have hpres : ∀ q es, fs q = some es → (create_container s fs).2.2 q = some es :=
    fun q es hq => create_container_preserves s fs q es hq
  have hck := check_gpu_ok s hdri hnv
  have hdirs := get_host_data_dirs_eq s fs base hb
  have hdirs1 := get_host_data_dirs_eq s
    (mkdirAll (dirs_of base).work (mkdirAll (dirs_of base).upper
      (mkdirAll (dirs_of base).empty (mkdirAll (dirs_of base).base fs)))) base hb
  have ho := ensure_overlay_eq s _ _ _ hdirs1
  have hcc : (create_container s fs).1 = Except.ok ()
      ∧ (create_container s fs).2.1 = [DaemonCall.inspect] := by
    unfold create_container
    rw [hck]
    dsimp only
    rw [if_neg hdisp, hdirs]
    dsimp only
    rw [ho]
    dsimp only
    rw [if_pos hex]
    exact ⟨rfl, rfl⟩
  exact ⟨hcc.1, hcc.2, hpres⟩

theorem create_noop_when_exists_witness :
    existsHost.containerExists = true
    ∧ existsHost.pathExists "/dev/dri" = true
    ∧ detect_display_server existsHost ≠ "none"
    ∧ ((create_container existsHost fs0).1 = Except.ok ()
       ∧ (create_container existsHost fs0).2.1 = [DaemonCall.inspect]
       ∧ (∀ q es, fs0 q = some es →
            (create_container existsHost fs0).2.2 q = some es)) :=
  ⟨rfl, rfl, by decide,
    create_noop_when_exists existsHost fs0 rfl rfl
      (fun hc => absurd hc (by decide)) (by decide) ⟨stdBase, rfl⟩⟩

/-- Claim C3 (confirmed): whenever overlay initialization (which begins with
layout resolution) completes, all four storage directories — base, upper,
work, lower/empty — exist; and the entries of the upper directory are
preserved verbatim, so a call made while the upper directory is non-empty
leaves its contents unchanged. -/
theorem overlay_init_dirs_and_preserves (s : HostState) (fs fs2 : Fs)
    (h : ensure_overlay s fs = Except.ok fs2) :
    ∃ base, get_data_dir s = Except.ok base
      ∧ (fs2 base).isSome = true
      ∧ (fs2 (base ++ "/upper")).isSome = true
      ∧ (fs2 (base ++ "/work")).isSome = true
      ∧ (fs2 (base ++ "/empty")).isSome = true
      ∧ (∀ es, fs (base ++ "/upper") = some es → fs2 (base ++ "/upper") = some es) := by
  cases hb : get_data_dir s with
  | error e => simp [ensure_overlay, get_host_data_dirs, hb] at h
  | ok base =>
    have hdirs := get_host_data_dirs_eq s fs base hb
    have ho := ensure_overlay_eq s fs _ _ hdirs
    rw [ho] at h
    simp only [Except.ok.injEq] at h
    subst h
    have hif : ∀ q,
        ((mkdirAll (dirs_of base).work (mkdirAll (dirs_of base).upper
          (mkdirAll (dirs_of base).empty (mkdirAll (dirs_of base).base fs))) q).isSome = true) →
        (((if ((mkdirAll (dirs_of base).work (mkdirAll (dirs_of base).upper
              (mkdirAll (dirs_of base).empty (mkdirAll (dirs_of base).base fs)))
              (dirs_of base).upper).getD []).isEmpty
           then mkdirAll (dirs_of base).work (mkdirAll (dirs_of base).upper
             (mkdirAll (dirs_of base).work (mkdirAll (dirs_of base).upper
               (mkdirAll (dirs_of base).empty (mkdirAll (dirs_of base).base fs)))))
           else mkdirAll (dirs_of base).work (mkdirAll (dirs_of base).upper
             (mkdirAll (dirs_of base).empty (mkdirAll (dirs_of base).base fs)))) q).isSome = true) := by
      intro q hq
      split
      · exact mkdirAll_isSome _ _ _ (mkdirAll_isSome _ _ _ hq)
      · exact hq
    have hifp : ∀ q es,
        (mkdirAll (dirs_of base).work (mkdirAll (dirs_of base).upper
          (mkdirAll (dirs_of base).empty (mkdirAll (dirs_of base).base fs))) q = some es) →
        ((if ((mkdirAll (dirs_of base).work (mkdirAll (dirs_of base).upper
              (mkdirAll (dirs_of base).empty (mkdirAll (dirs_of base).base fs)))
              (dirs_of base).upper).getD []).isEmpty
          then mkdirAll (dirs_of base).work (mkdirAll (dirs_of base).upper
            (mkdirAll (dirs_of base).work (mkdirAll (dirs_of base).upper
              (mkdirAll (dirs_of base).empty (mkdirAll (dirs_of base).base fs)))))
          else mkdirAll (dirs_of base).work (mkdirAll (dirs_of base).upper
            (mkdirAll (dirs_of base).empty (mkdirAll (dirs_of base).base fs)))) q = some es) := by
      intro q es hq
      split
      · exact mkdirAll_some _ _ _ _ (mkdirAll_some _ _ _ _ hq)
      · exact hq
    refine ⟨base, rfl,
      hif _ (mkdirAll_isSome _ _ _ (mkdirAll_isSome _ _ _
        (mkdirAll_isSome _ _ _ (mkdirAll_isSome_self _ _)))),
      hif _ (mkdirAll_isSome _ _ _ (mkdirAll_isSome_self _ _)),
      hif _ (mkdirAll_isSome_self _ _),
      hif _ (mkdirAll_isSome _ _ _ (mkdirAll_isSome _ _ _ (mkdirAll_isSome_self _ _))),
      fun es hes => hifp _ es (mkdirAll_some _ _ _ _ (mkdirAll_some _ _ _ _
        (mkdirAll_some _ _ _ _ (mkdirAll_some _ _ _ _ hes))))⟩

theorem overlay_init_dirs_witness :
    ensure_overlay stdHost c3fs = Except.ok c3fs1
    ∧ (∃ base, get_data_dir stdHost = Except.ok base
        ∧ (c3fs1 base).isSome = true
        ∧ (c3fs1 (base ++ "/upper")).isSome = true
        ∧ (c3fs1 (base ++ "/work")).isSome = true
        ∧ (c3fs1 (base ++ "/empty")).isSome = true
        ∧ (∀ es, c3fs (base ++ "/upper") = some es →
             c3fs1 (base ++ "/upper") = some es)) :=
  ⟨rfl, overlay_init_dirs_and_preserves stdHost c3fs c3fs1 rfl⟩

/-- Claim C4 (confirmed): on an Nvidia host, the mount list of the built spec
contains a bind mount for a candidate Nvidia device node exactly when that
node is present on the host — present nodes are all mounted, absent ones
never are. -/
theorem nvidia_mounts_exact (s : HostState) (opts : ContainerCreateOpts)
    (h : spec_of s = Except.ok opts) (hnv : s.pathExists "/dev/nvidia0" = true) :
    ∀ dev ∈ nvidia_dev_candidates,
      (opts.mounts.any fun m => decide (m.source = some dev)) = s.pathExists dev := by
  obtain ⟨base, hb, hopts, hd, hdri, ht⟩ := spec_of_inv s opts h
  subst hopts
  intro dev hdev
  rw [hnv]
  show ((base_mounts ("/run/user/" ++ toString s.uid)
      ["upperdir=" ++ (dirs_of base).upper, "lowerdir=" ++ (dirs_of base).empty,
       "workdir=" ++ (dirs_of base).work] ++
      (if true then (nvidia_dev_candidates.filter
        (fun dev => s.pathExists dev)).map nvidia_bind else [])).any
      fun m => decide (m.source = some dev)) = s.pathExists dev
  rw [if_pos rfl, List.any_append,
    base_mounts_no_candidate (toString s.uid) _ dev hdev,
    nvidia_mounts_any s.pathExists dev hdev]
  simp

theorem nvidia_mounts_exact_witness :
    spec_of nvHost = Except.ok nvOpts
    ∧ nvHost.pathExists "/dev/nvidia0" = true
    ∧ "/dev/nvidiactl" ∈ nvidia_dev_candidates
    ∧ "/dev/nvidia-uvm" ∈ nvidia_dev_candidates
    ∧ (nvOpts.mounts.any fun m => decide (m.source = some "/dev/nvidiactl"))
        = nvHost.pathExists "/dev/nvidiactl"
    ∧ (nvOpts.mounts.any fun m => decide (m.source = some "/dev/nvidia-uvm"))
        = nvHost.pathExists "/dev/nvidia-uvm" :=
  ⟨rfl, rfl, by decide, by decide,
    nvidia_mounts_exact nvHost nvOpts rfl rfl "/dev/nvidiactl" (by decide),
    nvidia_mounts_exact nvHost nvOpts rfl rfl "/dev/nvidia-uvm" (by decide)⟩

/-- Claim C6 (confirmed): the environment of the built spec contains the X11
DISPLAY variable exactly when X11 is the detected transport and the Wayland
WAYLAND_DISPLAY variable exactly when Wayland is the detected transport —
never both — and when a transport is active the variable carries the real
host value rather than the hardcoded fallback. -/
theorem display_env_matches_transport (s : HostState) (opts : ContainerCreateOpts)
    (h : spec_of s = Except.ok opts) :
    lookupEnv opts.env "DISPLAY"
      = (if detect_display_server s = "x11"
         then some (s.display_var.getD ":0") else none)
    ∧ lookupEnv opts.env "WAYLAND_DISPLAY"
      = (if detect_display_server s = "wayland"
         then some (s.wayland_display.getD "wayland-0") else none)
    ∧ (detect_display_server s = "x11" →
        ∃ v, s.display_var = some v ∧ lookupEnv opts.env "DISPLAY" = some v)
    ∧ (detect_display_server s = "wayland" →
        ∃ v, s.wayland_display = some v ∧ lookupEnv opts.env "WAYLAND_DISPLAY" = some v) := by
  obtain ⟨base, hb, hopts, hd, hdri, ht⟩ := spec_of_inv s opts h
  subst hopts
  cases hW : s.wayland_display with
  | some w =>
    have hdet : detect_display_server s = "wayland" := by
      simp [detect_display_server, hW]
    rw [hdet]
    cases hnv : s.pathExists "/dev/nvidia0" with
    | false =>
      have h1 : lookupEnv (build_spec s false "wayland" (dirs_of base)).env
          "DISPLAY" = none := rfl
      have h2 : lookupEnv (build_spec s false "wayland" (dirs_of base)).env
          "WAYLAND_DISPLAY" = some (s.wayland_display.getD "wayland-0") := rfl
      rw [hW] at h2
      exact ⟨by simp [h1], by simp [h2], fun hc => absurd hc (by decide),
        fun _ => ⟨w, rfl, by simp [h2]⟩⟩
    | true =>
      have h1 : lookupEnv (build_spec s true "wayland" (dirs_of base)).env
          "DISPLAY" = none := rfl
      have h2 : lookupEnv (build_spec s true "wayland" (dirs_of base)).env
          "WAYLAND_DISPLAY" = some (s.wayland_display.getD "wayland-0") := rfl
      rw [hW] at h2
      exact ⟨by simp [h1], by simp [h2], fun hc => absurd hc (by decide),
        fun _ => ⟨w, rfl, by simp [h2]⟩⟩
  | none =>
    cases hD : s.display_var with
    | some v =>
      have hdet : detect_display_server s = "x11" := by
        simp [detect_display_server, hW, hD]
      rw [hdet]
      cases hnv : s.pathExists "/dev/nvidia0" with
      | false =>
        have h1 : lookupEnv (build_spec s false "x11" (dirs_of base)).env
            "DISPLAY" = some (s.display_var.getD ":0") := rfl
        have h2 : lookupEnv (build_spec s false "x11" (dirs_of base)).env
            "WAYLAND_DISPLAY" = none := rfl
        rw [hD] at h1
        exact ⟨by simp [h1], by simp [h2], fun _ => ⟨v, rfl, by simp [h1]⟩,
          fun hc => absurd hc (by decide)⟩
      | true =>
        have h1 : lookupEnv (build_spec s true "x11" (dirs_of base)).env
            "DISPLAY" = some (s.display_var.getD ":0") := rfl
        have h2 : lookupEnv (build_spec s true "x11" (dirs_of base)).env
            "WAYLAND_DISPLAY" = none := rfl
        rw [hD] at h1
        exact ⟨by simp [h1], by simp [h2], fun _ => ⟨v, rfl, by simp [h1]⟩,
          fun hc => absurd hc (by decide)⟩
    | none => exact absurd (by simp [detect_display_server, hW, hD]) hd

theorem display_env_matches_transport_witness :
    spec_of stdHost = Except.ok stdOpts
    ∧ lookupEnv stdOpts.env "DISPLAY"
        = (if detect_display_server stdHost = "x11"
           then some (stdHost.display_var.getD ":0") else none)
    ∧ lookupEnv stdOpts.env "WAYLAND_DISPLAY"
        = (if detect_display_server stdHost = "wayland"
           then some (stdHost.wayland_display.getD "wayland-0") else none)
    ∧ (∃ v, stdHost.wayland_display = some v
        ∧ lookupEnv stdOpts.env "WAYLAND_DISPLAY" = some v) :=
  ⟨rfl, (display_env_matches_transport stdHost stdOpts rfl).1,
    (display_env_matches_transport stdHost stdOpts rfl).2.1,
    (display_env_matches_transport stdHost stdOpts rfl).2.2.2 rfl⟩

end HackerosSteam
